import Mathlib

/-!
Verification of the DoorDetection pipeline (src/api/detect.py, src/backend/detect.py,
src/backend/main.py) against its specification.

The repository contains two near-duplicate variants of the same detection pipeline:
`src/api/detect.py` (threshold 250, module-level constants) and `src/backend/detect.py`
(threshold 240, inline literals).  The control flow of the two variants is identical;
the embedding below follows the `src/api/detect.py` structure and parametrises the
binarisation threshold so that both variants are covered, with the two concrete
threshold constants defined alongside.

External collaborators (PIL image decoding, pdf2image, the YOLO model, PNG/base64
encoding) are modelled at their boundaries: the loader outcome is an input to
`detect`, the model is an optional function from (image, inference size) to a list
of results, and rendering (`result.plot()`) is modelled symbolically as the pair of
the base image and the list of boxes drawn on it.
-/

/-- An RGB pixel with channel values in 0..255. -/
structure RGB where
  r : Nat
  g : Nat
  b : Nat
deriving Repr, DecidableEq

/-- A raster image as a list of rows of RGB pixels (the in-memory bitmap). -/
abbrev Raster := List (List RGB)

/-- PIL `img.convert('L')` luminance of an RGB pixel: ITU-R 601-2 integer
arithmetic `(19595*R + 38470*G + 7471*B) >> 16` as implemented in Pillow. -/
def luminance (p : RGB) : Nat :=
  (19595 * p.r + 38470 * p.g + 7471 * p.b) / 65536

/-- `BINARY_THRESHOLD = 250` from src/api/detect.py. -/
def BINARY_THRESHOLD : Nat := 250

/-- `thr = 240` from src/backend/detect.py. -/
def thr : Nat := 240

/-- `np.array(img.convert('L'))`: the grayscale array of the image. -/
def toGray (img : Raster) : List (List Nat) :=
  img.map (fun row => row.map luminance)

/-- `(gray > T).astype(np.uint8)`: the 0/1 binary mask. -/
def binaryMask (T : Nat) (g : List (List Nat)) : List (List Nat) :=
  g.map (fun row => row.map (fun v => if v > T then 1 else 0))

/-- `binary_mask * 255`: scale the mask back to 0-255 grayscale. -/
def maskTimes255 (m : List (List Nat)) : List (List Nat) :=
  m.map (fun row => row.map (fun v => v * 255))

/-- `Image.fromarray(img_data).convert('RGB')`: replicate the single channel
into three identical channels. -/
def grayToRGB (g : List (List Nat)) : Raster :=
  g.map (fun row => row.map (fun v => RGB.mk v v v))

/-- `_preprocess_image` from src/api/detect.py (and the inline copy in
src/backend/detect.py), parametrised by the threshold constant `T`. -/
def preprocess_image (T : Nat) (img : Raster) : Raster :=
  grayToRGB (maskTimes255 (binaryMask T (toGray img)))

/-- `LARGE_IMAGE_THRESHOLD = 2000` from src/api/detect.py. -/
def LARGE_IMAGE_THRESHOLD : Nat := 2000

/-- `LARGE_IMAGE_SIZE = 3200` from src/api/detect.py. -/
def LARGE_IMAGE_SIZE : Nat := 3200

/-- `DEFAULT_IMAGE_SIZE = 640` from src/api/detect.py. -/
def DEFAULT_IMAGE_SIZE : Nat := 640

/-- The inline inference-size selection expression of both detect variants:
`imgsz = LARGE_IMAGE_SIZE if max(img_width, img_height) > LARGE_IMAGE_THRESHOLD
else DEFAULT_IMAGE_SIZE`. -/
def select_imgsz (w h : Nat) : Nat :=
  if max w h > LARGE_IMAGE_THRESHOLD then LARGE_IMAGE_SIZE else DEFAULT_IMAGE_SIZE

/-- `img.size` width of the bitmap: length of a row (0 for an empty image). -/
def imgWidth (img : Raster) : Nat := (img.headD []).length

/-- `img.size` height of the bitmap: number of rows. -/
def imgHeight (img : Raster) : Nat := img.length

/-- Per-pixel characterisation the preprocessing pipeline will be proved
equal to: luminance above the threshold becomes white, all else black. -/
def thresholdPixel (T : Nat) (p : RGB) : RGB :=
  if luminance p > T then RGB.mk 255 255 255 else RGB.mk 0 0 0

/-- Helper: the composed grayscale/mask/scale/expand pipeline acts pixelwise
as `thresholdPixel`. -/
theorem preprocess_image_eq_map (T : Nat) (img : Raster) :
    preprocess_image T img = img.map (fun row => row.map (thresholdPixel T)) := by
  unfold preprocess_image grayToRGB maskTimes255 binaryMask toGray
  simp only [List.map_map]
  refine List.map_congr_left (fun row _ => ?_)
  simp only [Function.comp_apply, List.map_map]
  refine List.map_congr_left (fun p _ => ?_)
  simp only [Function.comp_apply]
  unfold thresholdPixel
  by_cases h : luminance p > T <;> simp [h]

/-- C2: for every bitmap with dimensions (w, h), the selected inference size is
3200 if max(w, h) > 2000 and 640 otherwise; in particular at max(w, h) = 2000
the selected size is 640. -/
theorem select_imgsz_spec (w h : Nat) :
    (max w h > 2000 → select_imgsz w h = 3200) ∧
    (max w h ≤ 2000 → select_imgsz w h = 640) := by
  unfold select_imgsz LARGE_IMAGE_THRESHOLD LARGE_IMAGE_SIZE DEFAULT_IMAGE_SIZE
  constructor
  · intro hgt; simp [hgt]
  · intro hle; simp [Nat.not_lt.mpr hle]

/-- Witness for C2: at the boundary max(2000, 2000) = 2000 the size is 640, and
just above it (2001) the size is 3200. -/
theorem select_imgsz_spec_witness :
    select_imgsz 2000 2000 = 640 ∧ select_imgsz 2001 5 = 3200 :=
  ⟨(select_imgsz_spec 2000 2000).2 (by decide),
   (select_imgsz_spec 2001 5).1 (by decide)⟩

/-- C3: the preprocessor converts the RGB bitmap to single-channel luminance,
compares each pixel against the fixed threshold T, maps luminance > T to 255 and
everything else to 0, and re-expands the mask to three identical channels; the
two concrete threshold constants of the repository (250 in src/api/detect.py,
240 in src/backend/detect.py) both lie in the range 240-254. -/
theorem preprocess_image_spec :
    (∀ (T : Nat) (img : Raster),
      preprocess_image T img =
        img.map (fun row => row.map (fun p =>
          if luminance p > T then RGB.mk 255 255 255 else RGB.mk 0 0 0))) ∧
    240 ≤ BINARY_THRESHOLD ∧ BINARY_THRESHOLD ≤ 254 ∧ 240 ≤ thr ∧ thr ≤ 254 := by
  refine ⟨fun T img => ?_, by decide, by decide, by decide, by decide⟩
  exact preprocess_image_eq_map T img

/-- C4: for every RGB image and any threshold in the repository range 240-254,
the preprocessed output has only the channel values 0 and 255 (all three
channels equal), and preprocessing is idempotent on its own output. -/
theorem preprocess_image_twolevel_idem (T : Nat) (img : Raster)
    (hlo : 240 ≤ T) (hhi : T ≤ 254) :
    (∀ row ∈ preprocess_image T img, ∀ p ∈ row,
      (p.r = 0 ∨ p.r = 255) ∧ p.g = p.r ∧ p.b = p.r) ∧
    preprocess_image T (preprocess_image T img) = preprocess_image T img := by
  have hmap := preprocess_image_eq_map T img
  constructor
  · intro row hrow p hp
    rw [hmap] at hrow
    rcases List.mem_map.mp hrow with ⟨row0, _, hrow0⟩
    subst hrow0
    rcases List.mem_map.mp hp with ⟨p0, _, hp0⟩
    subst hp0
    unfold thresholdPixel
    by_cases h : luminance p0 > T <;> simp [h]
  · rw [preprocess_image_eq_map T (preprocess_image T img), hmap]
    simp only [List.map_map]
    refine List.map_congr_left (fun row _ => ?_)
    simp only [Function.comp_apply, List.map_map]
    refine List.map_congr_left (fun p _ => ?_)
    simp only [Function.comp_apply]
    unfold thresholdPixel
    by_cases h : luminance p > T
    · have hwhite : luminance (RGB.mk 255 255 255) = 255 := by
        unfold luminance; rfl
      simp only [h, if_pos]
      have : luminance (RGB.mk 255 255 255) > T := by
        rw [hwhite]; omega
      simp [this]
    · have hblack : luminance (RGB.mk 0 0 0) = 0 := by
        unfold luminance; rfl
      simp only [h, if_neg]
      have : ¬ luminance (RGB.mk 0 0 0) > T := by
        rw [hblack]; omega
      simp [h, this]

/-- Witness for C4 at the api threshold 250 on a concrete gray image. -/
theorem preprocess_image_twolevel_idem_witness :
    (∀ row ∈ preprocess_image 250 [[RGB.mk 251 252 253, RGB.mk 10 20 30]],
      ∀ p ∈ row, (p.r = 0 ∨ p.r = 255) ∧ p.g = p.r ∧ p.b = p.r) ∧
    preprocess_image 250 (preprocess_image 250 [[RGB.mk 251 252 253, RGB.mk 10 20 30]]) =
      preprocess_image 250 [[RGB.mk 251 252 253, RGB.mk 10 20 30]] :=
  preprocess_image_twolevel_idem 250 [[RGB.mk 251 252 253, RGB.mk 10 20 30]]
    (by decide) (by decide)

/-- A raw YOLO detection box: class id `cls` (`result.boxes.cls`), corners
`xyxy = (x1, y1, x2, y2)` in pixel coordinates (the Python code truncates the
float tensor with `int(...)`; the embedding works with the resulting integers),
and the confidence score `conf` (`box.conf[0]`, kept exact as a rational). -/
structure RawBox where
  cls : Nat
  x1 : Int
  y1 : Int
  x2 : Int
  y2 : Int
  conf : Rat
deriving Repr, DecidableEq

/-- A YOLO `result`: `result.names` is the class-id to class-name mapping (an
ordered association list, matching Python dict iteration order), and
`result.boxes` is the box collection, `none` modelling `result.boxes is None`. -/
structure YoloResult where
  names : List (Nat × String)
  boxes : Option (List RawBox)
deriving Repr, DecidableEq

/-- `result.boxes` viewed as a plain list (`None` behaves as empty). -/
def boxesOf (r : YoloResult) : List RawBox := r.boxes.getD []

/-- Log events emitted by the pipeline (logger warnings / print statements). -/
inductive LogEvent where
  | doorClassNotFound (available : List String)
  | ultralyticsUnavailable (filename : String)
  | modelFileNotFound
deriving Repr, DecidableEq

/-- The serialized box record appended to `boxes_data` by `_extract_door_boxes`. -/
structure DetectionBox where
  x : Int
  y : Int
  width : Int
  height : Int
  className : String
  confidence : Rat
deriving Repr, DecidableEq

/-- The dictionary built per retained box in `_extract_door_boxes`. -/
def serializeBox (b : RawBox) : DetectionBox :=
  { x := b.x1, y := b.y1, width := b.x2 - b.x1, height := b.y2 - b.y1,
    className := "Door", confidence := b.conf }

/-- Python `name.lower()` on class names, character-wise ASCII lower-casing
(written structurally over the character list so that it evaluates in the
kernel; agrees with `String.toLower`). -/
def lowerAscii (s : String) : String := String.mk (s.data.map Char.toLower)

/-- `next((cid for cid, name in class_names.items() if name.lower() == 'door'),
None)`: the first class id whose name lower-cases to "door". -/
def doorClassId (names : List (Nat × String)) : Option Nat :=
  (names.find? (fun p => lowerAscii p.2 == "door")).map Prod.fst

/-- Output of `_extract_door_boxes`: the serialized `boxes_data`, the result
object after the `result.boxes = filtered_boxes` mutation, and any warnings. -/
structure ExtractOut where
  boxesData : List DetectionBox
  result : YoloResult
  warnings : List LogEvent
deriving Repr, DecidableEq

/-- `_extract_door_boxes` from src/api/detect.py (src/backend/detect.py inlines
the same logic inside `detect`): early return on `boxes is None` or empty; look
up the door class id, warning and returning empty if absent; filter the boxes
by that class id (`door_mask`); if no box matches, return empty without
touching `result.boxes`; otherwise overwrite `result.boxes` with the filtered
collection and serialize each retained box in order. -/
def extract_door_boxes (r : YoloResult) : ExtractOut :=
  match r.boxes with
  | none => ⟨[], r, []⟩
  | some bs =>
    if bs.length = 0 then ⟨[], r, []⟩
    else
      match doorClassId r.names with
      | none => ⟨[], r, [LogEvent.doorClassNotFound (r.names.map Prod.snd)]⟩
      | some did =>
        let filtered := bs.filter (fun b => b.cls == did)
        if filtered.length = 0 then ⟨[], r, []⟩
        else ⟨filtered.map serializeBox, { r with boxes := some filtered }, []⟩

/-- Helper: whenever the door class id is found, `boxes_data` is exactly the
serialization of the door-class subsequence of the raw boxes. -/
theorem extract_door_boxes_boxesData (r : YoloResult) (did : Nat)
    (h : doorClassId r.names = some did) :
    (extract_door_boxes r).boxesData =
      ((boxesOf r).filter (fun b => b.cls == did)).map serializeBox := by
  unfold extract_door_boxes boxesOf
  cases hb : r.boxes with
  | none => simp
  | some bs =>
    simp only [Option.getD_some]
    by_cases hlen : bs.length = 0
    · have : bs = [] := List.length_eq_zero.mp hlen
      subst this
      simp
    · simp only [if_neg hlen, h]
      by_cases hf : (bs.filter (fun b => b.cls == did)).length = 0
      · have : bs.filter (fun b => b.cls == did) = [] := List.length_eq_zero.mp hf
        simp [hf, this]
      · simp [hf]

/-- Helper: whenever the door class id is not found, `boxes_data` is empty. -/
theorem extract_door_boxes_boxesData_none (r : YoloResult)
    (h : doorClassId r.names = none) :
    (extract_door_boxes r).boxesData = [] := by
  unfold extract_door_boxes
  cases hb : r.boxes with
  | none => simp
  | some bs =>
    by_cases hlen : bs.length = 0
    · simp [hlen]
    · simp [hlen, h]

/-- C1: when the class-name map has a class whose name equals "door"
case-insensitively (the first such id being `did`), the filter/serializer
returns exactly the detections carrying that class id, in the detector order,
each serialized as x = x1, y = y1, width = x2 - x1, height = y2 - y1,
className = "Door", confidence = the raw score; in particular out of the N raw
detections exactly the M door-class ones are returned. -/
theorem extract_door_boxes_spec (r : YoloResult) (did : Nat)
    (h : doorClassId r.names = some did) :
    (extract_door_boxes r).boxesData =
      ((boxesOf r).filter (fun b => b.cls == did)).map (fun b =>
        { x := b.x1, y := b.y1, width := b.x2 - b.x1, height := b.y2 - b.y1,
          className := "Door", confidence := b.conf }) ∧
    (extract_door_boxes r).boxesData.length =
      ((boxesOf r).filter (fun b => b.cls == did)).length := by
  have hbd := extract_door_boxes_boxesData r did h
  constructor
  · exact hbd
  · rw [hbd, List.length_map]

/-- Confidence value 9/10, written as an explicit reduced fraction so that it
evaluates in the kernel. -/
def conf09 : Rat := ⟨9, 10, by norm_num, by norm_num⟩

/-- Confidence value 1/2, written as an explicit reduced fraction. -/
def conf05 : Rat := ⟨1, 2, by norm_num, by norm_num⟩

/-- Confidence value 1/4, written as an explicit reduced fraction. -/
def conf025 : Rat := ⟨1, 4, by norm_num, by norm_num⟩

/-- Witness for C1: a concrete result with N = 3 raw detections, M = 2 of the
door class (class map name "Door", matched case-insensitively). -/
theorem extract_door_boxes_spec_witness :
    (extract_door_boxes
      ⟨[(0, "window"), (1, "Door")],
       some [⟨1, 10, 10, 50, 60, conf09⟩, ⟨0, 0, 0, 5, 5, conf05⟩,
             ⟨1, 7, 8, 9, 11, conf025⟩]⟩).boxesData =
      [{ x := 10, y := 10, width := 40, height := 50, className := "Door",
         confidence := conf09 },
       { x := 7, y := 8, width := 2, height := 3, className := "Door",
         confidence := conf025 }] := by
  have h := (extract_door_boxes_spec
    ⟨[(0, "window"), (1, "Door")],
     some [⟨1, 10, 10, 50, 60, conf09⟩, ⟨0, 0, 0, 5, 5, conf05⟩,
           ⟨1, 7, 8, 9, 11, conf025⟩]⟩ 1 (by decide)).1
  rw [h]
  decide

/-- The annotated view produced by `Image.fromarray(result.plot()[:, :, ::-1])`:
`result.plot()` renders the boxes currently stored in `result.boxes` over the
image the model was run on; the rendering itself is external, so it is modelled
symbolically as the base image together with the list of boxes drawn. An
un-annotated image is the same raster with no boxes drawn. -/
structure Annotated where
  base : Raster
  drawnBoxes : List RawBox
deriving Repr, DecidableEq

/-- Error kinds crossing the pipeline/endpoint boundary: `valueError` is the
`ValueError` raised by `detect` in src/api/detect.py, `unexpected` is any other
exception reaching the endpoint handler. -/
inductive PipeError where
  | valueError (msg : String)
  | unexpected (msg : String)
deriving Repr, DecidableEq

/-- The triple returned by `detect`: (annotated image, preprocessed image,
serialized boxes). -/
structure DetectOutput where
  annotated : Annotated
  original : Raster
  boxesData : List DetectionBox
deriving Repr, DecidableEq

/-- Outcome of `_load_image` plus the RGB-mode conversion: either the decoded
RGB bitmap, or the message of the exception raised while decoding (invalid
image bytes, invalid PDF, zero pages). The decoding itself is external
(PIL / pdf2image). -/
inductive LoadResult where
  | ok (img : Raster)
  | err (msg : String)

/-- The external YOLO model: given the (preprocessed) image and the chosen
inference size, returns the list of results. `model(img, imgsz=imgsz)`. -/
structure ModelSpec where
  run : Raster → Nat → List YoloResult

/-- `detect` from src/api/detect.py (src/backend/detect.py is the same control
flow with its own threshold constant): preprocess the loaded image, choose the
inference size from the preprocessed image dimensions, and if the lazily loaded
model is present run it, extract the door boxes (mutating `result.boxes`), and
render; otherwise return the preprocessed image as both outputs with no boxes.
Any exception in the body is re-raised as
`ValueError(f"Failed to process {filename}: {e}")`; the loader outcome carries
the only failure source of the embedded body. -/
def detect (load : LoadResult) (model : Option ModelSpec) (filename : String) :
    Except PipeError DetectOutput :=
  match load with
  | .err msg =>
    .error (.valueError ("Failed to process " ++ filename ++ ": " ++ msg))
  | .ok raw =>
    let img := preprocess_image BINARY_THRESHOLD raw
    let imgsz := select_imgsz (imgWidth img) (imgHeight img)
    match model with
    | some m =>
      match m.run img imgsz with
      | [] => .ok ⟨⟨img, []⟩, img, []⟩
      | result :: _ =>
        let out := extract_door_boxes result
        .ok ⟨⟨img, boxesOf out.result⟩, img, out.boxesData⟩
    | none => .ok ⟨⟨img, []⟩, img, []⟩

/-- C5: with the model handle unset (dependency missing or weights file
absent), `detect` on any successfully loaded file skips inference and returns
the preprocessed image as both the annotated output (nothing drawn) and the
original output, together with an empty detection list, raising no error. -/
theorem detect_no_model (raw : Raster) (filename : String) :
    detect (.ok raw) none filename =
      .ok ⟨⟨preprocess_image BINARY_THRESHOLD raw, []⟩,
           preprocess_image BINARY_THRESHOLD raw, []⟩ := rfl

/-- C6: when no class name lower-cases to "door", the filter returns an empty
box list without raising (the result object is left untouched), and when the
raw box collection is non-empty a warning listing the available class names is
logged. -/
theorem extract_door_boxes_no_door_class (r : YoloResult)
    (h : doorClassId r.names = none) :
    (extract_door_boxes r).boxesData = [] ∧
    (extract_door_boxes r).result = r ∧
    (boxesOf r ≠ [] →
      (extract_door_boxes r).warnings =
        [LogEvent.doorClassNotFound (r.names.map Prod.snd)]) := by
  unfold extract_door_boxes boxesOf
  cases hb : r.boxes with
  | none => simp
  | some bs =>
    by_cases hlen : bs.length = 0
    · have : bs = [] := List.length_eq_zero.mp hlen
      subst this
      simp
    · simp [hlen, h]

/-- Witness for C6: a concrete result whose classes are "window" and "wall". -/
theorem extract_door_boxes_no_door_class_witness :
    (extract_door_boxes
      ⟨[(0, "window"), (1, "wall")], some [⟨0, 1, 2, 3, 4, conf05⟩]⟩).boxesData = [] ∧
    (extract_door_boxes
      ⟨[(0, "window"), (1, "wall")], some [⟨0, 1, 2, 3, 4, conf05⟩]⟩).result =
      ⟨[(0, "window"), (1, "wall")], some [⟨0, 1, 2, 3, 4, conf05⟩]⟩ ∧
    (extract_door_boxes
      ⟨[(0, "window"), (1, "wall")], some [⟨0, 1, 2, 3, 4, conf05⟩]⟩).warnings =
      [LogEvent.doorClassNotFound ["window", "wall"]] := by
  have h := extract_door_boxes_no_door_class
    ⟨[(0, "window"), (1, "wall")], some [⟨0, 1, 2, 3, 4, conf05⟩]⟩ (by decide)
  exact ⟨h.1, h.2.1, h.2.2 (by decide)⟩

/-- C9: under the detector contract x1 ≤ x2 and y1 ≤ y2 on every raw box, every
serialized DetectionBox has non-negative width and height, and its className is
always the literal "Door". -/
theorem detection_box_invariant (r : YoloResult)
    (hcontract : ∀ b ∈ boxesOf r, b.x1 ≤ b.x2 ∧ b.y1 ≤ b.y2) :
    ∀ d ∈ (extract_door_boxes r).boxesData,
      0 ≤ d.width ∧ 0 ≤ d.height ∧ d.className = "Door" := by
  intro d hd
  cases hdoor : doorClassId r.names with
  | none =>
    rw [extract_door_boxes_boxesData_none r hdoor] at hd
    exact absurd hd (List.not_mem_nil d)
  | some did =>
    rw [extract_door_boxes_boxesData r did hdoor] at hd
    rcases List.mem_map.mp hd with ⟨b, hbmem, hser⟩
    have hbraw : b ∈ boxesOf r := List.mem_of_mem_filter hbmem
    rcases hcontract b hbraw with ⟨hx, hy⟩
    subst hser
    unfold serializeBox
    refine ⟨?_, ?_, rfl⟩
    · simpa using Int.sub_nonneg.mpr hx
    · simpa using Int.sub_nonneg.mpr hy

/-- Witness for C9 on a concrete two-box result, at the first produced box. -/
theorem detection_box_invariant_witness :
    0 ≤ (serializeBox ⟨0, 3, 4, 13, 24, conf09⟩).width ∧
    0 ≤ (serializeBox ⟨0, 3, 4, 13, 24, conf09⟩).height ∧
    (serializeBox ⟨0, 3, 4, 13, 24, conf09⟩).className = "Door" :=
  detection_box_invariant
    ⟨[(0, "DOOR")], some [⟨0, 3, 4, 13, 24, conf09⟩, ⟨0, 0, 0, 0, 0, conf05⟩]⟩
    (by decide) (serializeBox ⟨0, 3, 4, 13, 24, conf09⟩) (by decide)

/-- Helper: how `extract_door_boxes` treats `result.boxes` when the door class
id is found: the boxes are overwritten with the door-only subset precisely when
that subset is non-empty, and left untouched otherwise. -/
theorem extract_door_boxes_result (r : YoloResult) (did : Nat)
    (h : doorClassId r.names = some did) :
    ((boxesOf r).filter (fun b => b.cls == did) ≠ [] →
      boxesOf (extract_door_boxes r).result =
        (boxesOf r).filter (fun b => b.cls == did)) ∧
    ((boxesOf r).filter (fun b => b.cls == did) = [] →
      (extract_door_boxes r).result = r) := by
  unfold extract_door_boxes boxesOf
  cases hb : r.boxes with
  | none => simp
  | some bs =>
    simp only [Option.getD_some]
    by_cases hlen : bs.length = 0
    · have : bs = [] := List.length_eq_zero.mp hlen
      subst this
      simp
    · simp only [if_neg hlen, h]
      by_cases hf : (bs.filter (fun b => b.cls == did)).length = 0
      · have hnil : bs.filter (fun b => b.cls == did) = [] :=
          List.length_eq_zero.mp hf
        simp [hf, hnil]
      · have hne : bs.filter (fun b => b.cls == did) ≠ [] := by
          intro hcon
          exact hf (by rw [hcon]; rfl)
        simp [hf, hne]

/-- Helper: when no class name lower-cases to "door", `extract_door_boxes`
leaves the result object (its box collection included) untouched. -/
theorem extract_door_boxes_result_no_door (r : YoloResult)
    (h : doorClassId r.names = none) :
    (extract_door_boxes r).result = r := by
  unfold extract_door_boxes
  cases hb : r.boxes with
  | none => simp
  | some bs =>
    by_cases hlen : bs.length = 0
    · simp [hlen]
    · simp [hlen, h]

/-- C10 (amended): for every first result of the detector, when the door class
exists and at least one detection carries it, `detect` replaces the result box
collection with the door-only subset before rendering, so the annotated image
draws exactly the door-class detections; when no detection carries it, or no
door class exists at all, the collection is left unchanged (so the annotated
image draws all raw detections); and the annotated image returned by `detect`
always draws exactly the post-filter box collection of that first result. -/
theorem detect_renders_filtered_result (r : YoloResult) :
    (∀ did, doorClassId r.names = some did →
      ((boxesOf r).filter (fun b => b.cls == did) ≠ [] →
        boxesOf (extract_door_boxes r).result =
          (boxesOf r).filter (fun b => b.cls == did)) ∧
      ((boxesOf r).filter (fun b => b.cls == did) = [] →
        (extract_door_boxes r).result = r)) ∧
    (doorClassId r.names = none → (extract_door_boxes r).result = r) ∧
    (∀ (raw : Raster) (m : ModelSpec) (filename : String)
        (rest : List YoloResult) (out : DetectOutput),
      m.run (preprocess_image BINARY_THRESHOLD raw)
          (select_imgsz (imgWidth (preprocess_image BINARY_THRESHOLD raw))
            (imgHeight (preprocess_image BINARY_THRESHOLD raw))) = r :: rest →
      detect (.ok raw) (some m) filename = .ok out →
      out.annotated.drawnBoxes = boxesOf (extract_door_boxes r).result) := by
  refine ⟨fun did h => extract_door_boxes_result r did h,
          fun h => extract_door_boxes_result_no_door r h, ?_⟩
  intro raw m filename rest out hrun hdet
  unfold detect at hdet
  simp only [hrun] at hdet
  cases hdet
  rfl

/-- A concrete result whose class map has a door class (id 0) but whose single
raw detection carries the non-door class 1. -/
def cexResult : YoloResult :=
  ⟨[(0, "door"), (1, "window")], some [⟨1, 5, 5, 20, 30, conf05⟩]⟩

/-- A model stub returning `cexResult` for every invocation. -/
def cexModel : ModelSpec := ⟨fun _ _ => [cexResult]⟩

/-- A one-pixel black input image. -/
def cexRaw : Raster := [[RGB.mk 0 0 0]]

/-- Counterexample to C10 as stated: on `cexRaw` with `cexModel`, `detect`
succeeds with an empty door-box list, yet the annotated image draws the one
raw non-door detection rather than no boxes: `result.boxes` is only replaced
when the door filter is non-empty. -/
theorem detect_renders_filtered_result_cex :
    (detect (.ok cexRaw) (some cexModel) "plan.png").toOption.map
        DetectOutput.boxesData = some [] ∧
    (detect (.ok cexRaw) (some cexModel) "plan.png").toOption.map
        (fun o => o.annotated.drawnBoxes) = some [⟨1, 5, 5, 20, 30, conf05⟩] :=
  ⟨rfl, rfl⟩

/-- Witness for C10 (amended): on a concrete result carrying a door detection
the rendered box collection is the door-only filter output, and on a concrete
result with no door class the result object is left unchanged. -/
theorem detect_renders_filtered_result_witness :
    boxesOf (extract_door_boxes
      ⟨[(0, "Door")], some [⟨0, 1, 2, 3, 4, conf09⟩]⟩).result =
      (boxesOf ⟨[(0, "Door")], some [⟨0, 1, 2, 3, 4, conf09⟩]⟩).filter
        (fun b => b.cls == 0) ∧
    (extract_door_boxes
      ⟨[(0, "wall")], some [⟨0, 1, 2, 3, 4, conf09⟩]⟩).result =
      ⟨[(0, "wall")], some [⟨0, 1, 2, 3, 4, conf09⟩]⟩ :=
  ⟨((detect_renders_filtered_result
      ⟨[(0, "Door")], some [⟨0, 1, 2, 3, 4, conf09⟩]⟩).1 0 (by decide)).1
      (by decide),
   (detect_renders_filtered_result
      ⟨[(0, "wall")], some [⟨0, 1, 2, 3, 4, conf09⟩]⟩).2.1 (by decide)⟩

/-- One entry of the `results` list assembled by `detect_endpoint` in
src/backend/main.py (PNG/base64 encoding of the two images is external and
kept symbolic: the entry holds the images themselves). -/
structure FileEntry where
  filename : String
  image : Annotated
  originalImage : Raster
  boxes : List DetectionBox
deriving Repr, DecidableEq

/-- The two exception handlers of the endpoint loop: `except ValueError` maps
to HTTP 422 with the exception text as detail, any other exception maps to
HTTP 500 with the fixed detail "Internal error". -/
def httpOfError : PipeError → Nat × String
  | .valueError msg => (422, msg)
  | .unexpected _ => (500, "Internal error")

/-- The `for file in files` loop of `detect_endpoint`: each file contributes
its entry to `results`, and the first failure raises, abandoning the loop. -/
def processFiles (files : List (String × Except PipeError DetectOutput))
    (acc : List FileEntry) : Except (Nat × String) (List FileEntry) :=
  match files with
  | [] => .ok acc.reverse
  | f :: fs =>
    match f.2 with
    | .ok out =>
      processFiles fs (⟨f.1, out.annotated, out.original, out.boxesData⟩ :: acc)
    | .error e => .error (httpOfError e)

/-- `detect_endpoint` from src/backend/main.py: reject an empty upload list
with 400, then process the files in order; the response carries the per-file
entries. Each file's own processing outcome (reading its bytes and running
`detect` on them) is the second component of its input pair. -/
def detect_endpoint (files : List (String × Except PipeError DetectOutput)) :
    Except (Nat × String) (List FileEntry) :=
  if files.isEmpty then .error (400, "No files provided")
  else processFiles files []

/-- Helper: the loop aborts at the first failing file, whatever came before. -/
theorem processFiles_fail (fname : String) (e : PipeError)
    (rest : List (String × Except PipeError DetectOutput)) :
    ∀ (pre : List (String × Except PipeError DetectOutput))
      (acc : List FileEntry),
      (∀ f ∈ pre, ∃ o, f.2 = Except.ok o) →
      processFiles (pre ++ (fname, Except.error e) :: rest) acc =
        .error (httpOfError e) := by
  intro pre
  induction pre with
  | nil => intro acc _; rfl
  | cons f fs ih =>
    intro acc hok
    rcases hok f (List.mem_cons_self f fs) with ⟨o, ho⟩
    rw [List.cons_append]
    unfold processFiles
    rw [ho]
    exact ih _ (fun g hg => hok g (List.mem_cons_of_mem f hg))

/-- C7 (amended): a processing failure on one file aborts the whole request:
provided every earlier file succeeded, the endpoint surfaces the failure
(422 for a ValueError, 500 with fixed detail for an unexpected error) and the
sibling files after the failing one are not processed: no partial result list
is returned. -/
theorem detect_endpoint_abort
    (pre : List (String × Except PipeError DetectOutput))
    (fname : String) (e : PipeError)
    (rest : List (String × Except PipeError DetectOutput))
    (hok : ∀ f ∈ pre, ∃ o, f.2 = Except.ok o) :
    detect_endpoint (pre ++ (fname, Except.error e) :: rest) =
      .error (httpOfError e) ∧
    (∀ m, httpOfError (.valueError m) = (422, m)) ∧
    (∀ m, httpOfError (.unexpected m) = (500, "Internal error")) := by
  refine ⟨?_, fun m => rfl, fun m => rfl⟩
  unfold detect_endpoint
  have hne : (pre ++ (fname, Except.error e) :: rest).isEmpty = false := by
    cases pre <;> rfl
  rw [hne]
  simp only [Bool.false_eq_true, if_false]
  exact processFiles_fail fname e rest pre [] hok

/-- A trivial successful per-file output used by the endpoint examples. -/
def okOut : DetectOutput := ⟨⟨[], []⟩, [], []⟩

/-- Counterexample to C7 as stated: with a failing first file and a healthy
second file, the endpoint request aborts with the first file's 422 error and
returns no result for the second file at all. -/
theorem detect_endpoint_abort_cex :
    detect_endpoint
      [("a.png", .error (.valueError "Failed to process a.png: bad bytes")),
       ("b.png", .ok okOut)] =
      .error (422, "Failed to process a.png: bad bytes") := rfl

/-- Witness for C7 (amended): one healthy file before an unexpected failure,
one healthy file after it; the request aborts with 500. -/
theorem detect_endpoint_abort_witness :
    detect_endpoint
      [("ok.png", .ok okOut), ("bad.png", .error (.unexpected "boom")),
       ("c.png", .ok okOut)] =
      .error (500, "Internal error") :=
  (detect_endpoint_abort [("ok.png", .ok okOut)] "bad.png" (.unexpected "boom")
    [("c.png", .ok okOut)]
    (fun f hf => by
      rcases List.mem_singleton.mp hf with rfl
      exact ⟨okOut, rfl⟩)).1

/-- C8: a loading/preprocessing failure makes `detect` raise exactly a
ValueError whose message contains the filename, and the endpoint maps a
ValueError to status 422 with the message as detail and any other error to
status 500 with the fixed detail "Internal error". -/
theorem input_decode_error_spec (msg : String) (model : Option ModelSpec)
    (filename : String) :
    (∃ emsg, detect (.err msg) model filename =
        .error (.valueError emsg) ∧
      ∃ pre post, emsg = pre ++ filename ++ post) ∧
    (∀ m, httpOfError (.valueError m) = (422, m)) ∧
    (∀ m, httpOfError (.unexpected m) = (500, "Internal error")) := by
  refine ⟨⟨"Failed to process " ++ filename ++ ": " ++ msg, rfl,
          "Failed to process ", ": " ++ msg, ?_⟩, fun m => rfl, fun m => rfl⟩
  rw [String.append_assoc]
